import Mathlib

/-!
Verification of the exception-reporting subsystem of the
gaussian-splatting viewer: `ExceptionHandler` (declared in
`include/core/exception_handler.hpp`) and `ExceptionVisualizer`
(declared in `src/visualizer/exception_visualizer.hpp`, implemented in
`src/exception_handler.cpp`).

The embedding is shallow: C++ classes become Lean structures, member
functions become pure state-transforming functions, `float` lifetimes
and frame deltas become `ℚ`, and a thrown C++ exception becomes a value
of an inductive type recording its dynamic kind.
-/

namespace GsCore

/-- Modelled from the spec: `Severity` is an alias for `LogLevel` from
`logger.hpp`, which is not among the provided sources.  The spec lists the
ordered enumeration Trace, Debug, Info, Warn, Error, Critical. -/
inductive Severity where
  | trace
  | debug
  | info
  | warn
  | error
  | critical
deriving DecidableEq, Repr

/-- `std::source_location`: file, line, enclosing function, captured at the
instrumentation call site. -/
structure SourceLocation where
  fileName : String
  functionName : String
  line : Nat
deriving DecidableEq, Repr

/-- `gs::core::ExceptionEvent` (exception_handler.hpp lines 14-20).  The
`timestamp` field (`std::chrono::steady_clock::time_point`) is an
environment-supplied monotonic clock reading that no verified claim
depends on; it is omitted from the embedding. -/
structure ExceptionEvent where
  message : String
  severity : Severity
  location : SourceLocation
  typeName : String
deriving DecidableEq, Repr

/-- The dynamic kind of a C++ exception reaching `wrap`'s catch chain,
each recognized kind carrying its `what()` string.  In the real class
hierarchy `std::filesystem::filesystem_error` derives from
`std::system_error`, which derives from `std::runtime_error`, which
derives from `std::exception`; `unknownExc` stands for any object not
derived from `std::exception` (caught only by `catch (...)`). -/
inductive CppExc where
  | filesystemError (what : String)
  | systemError (what : String)
  | runtimeError (what : String)
  | otherException (what : String)
  | unknownExc
deriving DecidableEq, Repr

/-- Whether `catch (const std::filesystem::filesystem_error&)` matches. -/
def CppExc.matchesFilesystemError : CppExc → Bool
  | .filesystemError _ => true
  | _ => false

/-- Whether `catch (const std::system_error&)` matches (a
`filesystem_error` is-a `system_error`). -/
def CppExc.matchesSystemError : CppExc → Bool
  | .filesystemError _ => true
  | .systemError _ => true
  | _ => false

/-- Whether `catch (const std::runtime_error&)` matches (both of the above
derive from `std::runtime_error`). -/
def CppExc.matchesRuntimeError : CppExc → Bool
  | .filesystemError _ => true
  | .systemError _ => true
  | .runtimeError _ => true
  | _ => false

/-- Whether `catch (const std::exception&)` matches. -/
def CppExc.matchesStdException : CppExc → Bool
  | .unknownExc => false
  | _ => true

/-- The `e.what()` string seen by a handler binding a `std::exception`
reference; `unknownExc` exposes none (the catch-all never reads one). -/
def CppExc.what : CppExc → String
  | .filesystemError w => w
  | .systemError w => w
  | .runtimeError w => w
  | .otherException w => w
  | .unknownExc => ""

/-- `gs::core::ExceptionHandler`: the state a claim can observe is the
registered observer list, in registration order.  Observers are
identified by opaque tags (`Nat`); delivery of an event to observer `o`
is recorded as the pair `(o, event)`. -/
structure ExceptionHandler where
  observers : List Nat
deriving DecidableEq, Repr

/-- A handler with no registered observers. -/
def ExceptionHandler.empty : ExceptionHandler := ⟨[]⟩

/-- `ExceptionHandler::add_observer` (hpp lines 82-85): appends the
callback to the back of the observer vector. -/
def ExceptionHandler.addObserver (h : ExceptionHandler) (o : Nat) : ExceptionHandler :=
  ⟨h.observers ++ [o]⟩

/-- `ExceptionHandler::remove_observers` (hpp lines 87-90). -/
def ExceptionHandler.removeObservers (_h : ExceptionHandler) : ExceptionHandler :=
  ⟨[]⟩

/-- The observable outcome of one publication: the single constructed
event and the sequence of observer invocations, in invocation order. -/
structure PublishResult where
  event : ExceptionEvent
  deliveries : List (Nat × ExceptionEvent)
deriving DecidableEq, Repr

/-- Modelled from the spec: the body of
`ExceptionHandler::handle_exception` is not among the provided sources
(the header at lines 100-103 only declares it, and `wrap`,
`handle_expected` and `report` call it).  Per the spec, each call
constructs exactly one `FaultEvent` from its arguments and hands it to
every registered observer, synchronously, on the calling thread, in
registration order. -/
def ExceptionHandler.handleException (h : ExceptionHandler) (msg : String)
    (sev : Severity) (type_ : String) (loc : SourceLocation) : PublishResult :=
  let evt : ExceptionEvent :=
    { message := msg, severity := sev, location := loc, typeName := type_ }
  { event := evt, deliveries := h.observers.map (fun o => (o, evt)) }

/-- `ExceptionHandler::report` (hpp lines 75-79): publishes directly with
category `"manual_report"`. -/
def ExceptionHandler.report (h : ExceptionHandler) (msg : String)
    (sev : Severity) (loc : SourceLocation) : PublishResult :=
  h.handleException msg sev "manual_report" loc

/-- The adapter returned by `ExceptionHandler::wrap` (hpp lines 33-58),
applied to one argument.  The wrapped callable is modelled as
`f : α → Except CppExc β`: `.ok v` is a normal return of `v`, `.error e`
is a raised exception of dynamic kind `e`.  The catch chain is tried in
source order (C++ first-match semantics); a handled failure publishes one
event and the adapter returns the value-initialized default (`return {}`
for non-void `β`).  The second component lists the publications made by
the call (empty on normal return). -/
def ExceptionHandler.wrapRun {α β : Type} [Inhabited β] (h : ExceptionHandler)
    (f : α → Except CppExc β) (loc : SourceLocation) (a : α) :
    β × List PublishResult :=
  match f a with
  | .ok v => (v, [])
  | .error e =>
    if e.matchesFilesystemError then
      (default, [h.handleException e.what .error "filesystem_error" loc])
    else if e.matchesSystemError then
      (default, [h.handleException e.what .error "system_error" loc])
    else if e.matchesRuntimeError then
      (default, [h.handleException e.what .error "runtime_error" loc])
    else if e.matchesStdException then
      (default, [h.handleException e.what .error "exception" loc])
    else
      (default, [h.handleException "Unknown exception" .critical "unknown" loc])

/-- `ExceptionHandler::handle_expected` (hpp lines 62-72).  The
`std::expected<T, E>` argument is `Except E T`; the compile-time test
`std::is_convertible_v<E, std::string>` is the presence of a conversion
`conv : Option (E → String)`.  Returns the publications made; the
argument is taken by const reference and never written. -/
def ExceptionHandler.handleExpected {T E : Type} (h : ExceptionHandler)
    (conv : Option (E → String)) (result : Except E T) (loc : SourceLocation) :
    List PublishResult :=
  match result with
  | .ok _ => []
  | .error e =>
    match conv with
    | some c => [h.report (c e) .warn loc]
    | none => [h.report "Operation failed" .warn loc]

end GsCore

namespace GsVisualizer

open GsCore

/-- `IM_COL32(R,G,B,A)` as a `Nat`: `(A<<24) | (B<<16) | (G<<8) | R`. -/
def imCol32 (r g b a : Nat) : Nat :=
  a * 2 ^ 24 + b * 2 ^ 16 + g * 2 ^ 8 + r

/-- `ExceptionVisualizer::severity_to_color` (exception_handler.cpp
lines 281-298). -/
def severityToColor : Severity → Nat
  | .critical => imCol32 255 50 50 255
  | .error => imCol32 220 80 80 255
  | .warn => imCol32 220 180 50 255
  | .info => imCol32 100 180 220 255
  | .debug => imCol32 150 150 220 255
  | .trace => imCol32 180 180 180 255

/-- `std::filesystem::path(p).filename()`: the component after the last
directory separator. -/
def pathFilename (p : String) : String :=
  (p.splitOn "/").getLastD p

/-- The `std::format("\x7b\x7d:\x7b\x7d", path.filename(), line)` string built in
`on_exception` (exception_handler.cpp lines 53-57). -/
def formatLocation (loc : SourceLocation) : String :=
  pathFilename loc.fileName ++ ":" ++ toString loc.line

/-- `ExceptionVisualizer::Toast` (exception_visualizer.hpp lines 43-51);
`float` lifetimes are embedded as `ℚ`. -/
structure Toast where
  message : String
  location : String
  type_ : String
  lifetime : ℚ
  initialLifetime : ℚ
  color : Nat
  severity : Severity
deriving DecidableEq, Repr

/-- The `Toast` aggregate pushed by `on_exception` (exception_handler.cpp
lines 59-65): both `lifetime` and `initial_lifetime` start at the
configured `toast_lifetime_`. -/
def toastOf (toastLifetime : ℚ) (evt : ExceptionEvent) : Toast :=
  { message := evt.message
    location := formatLocation evt.location
    type_ := evt.typeName
    lifetime := toastLifetime
    initialLifetime := toastLifetime
    color := severityToColor evt.severity
    severity := evt.severity }

/-- The mutable state of one `ExceptionVisualizer`
(exception_visualizer.hpp lines 61-80): the toast deque, the optional
critical modal, the configuration atomics and the statistics counters. -/
structure VisualizerState where
  toasts : List Toast
  modalError : Option ExceptionEvent
  enabled : Bool
  maxToasts : Nat
  toastLifetime : ℚ
  positionCorner : Nat
  errorCount : Nat
  warningCount : Nat
  infoCount : Nat
deriving DecidableEq, Repr

/-- The default-constructed state: `enabled_ = true`, `max_toasts_ = 5`,
`toast_lifetime_ = 4.0`, `position_corner_ = 0`, all counters zero. -/
def VisualizerState.initial : VisualizerState :=
  { toasts := [], modalError := none, enabled := true, maxToasts := 5,
    toastLifetime := 4, positionCorner := 0,
    errorCount := 0, warningCount := 0, infoCount := 0 }

/-- `ExceptionVisualizer::get_error_count` (exception_visualizer.hpp
line 39). -/
def VisualizerState.getErrorCount (s : VisualizerState) : Nat := s.errorCount

/-- `ExceptionVisualizer::get_warning_count` (exception_visualizer.hpp
line 40). -/
def VisualizerState.getWarningCount (s : VisualizerState) : Nat := s.warningCount

/-- The statistics `switch` at the top of `on_exception`
(exception_handler.cpp lines 26-41).  The source's `default: break;`
branch is unreachable because `LogLevel` has exactly the six enumerators
matched by the listed cases. -/
def bumpStats (s : VisualizerState) (sev : Severity) : VisualizerState :=
  match sev with
  | .error => { s with errorCount := s.errorCount + 1 }
  | .critical => { s with errorCount := s.errorCount + 1 }
  | .warn => { s with warningCount := s.warningCount + 1 }
  | .info => { s with infoCount := s.infoCount + 1 }
  | .debug => { s with infoCount := s.infoCount + 1 }
  | .trace => { s with infoCount := s.infoCount + 1 }

/-- The eviction loop `while (toasts_.size() > max_toasts_)
toasts_.pop_front();` (exception_handler.cpp lines 68-70). -/
def evictOldest : List Toast → Nat → List Toast
  | [], _ => []
  | t :: ts, maxT =>
    if (t :: ts).length > maxT then evictOldest ts maxT else t :: ts

/-- `ExceptionVisualizer::on_exception` (exception_handler.cpp
lines 24-71): bump one statistics counter; a Critical event then
occupies the modal slot and returns; otherwise a toast is appended at
the back and the oldest entries are evicted from the front while the
queue exceeds `max_toasts_`. -/
def onException (s : VisualizerState) (evt : ExceptionEvent) : VisualizerState :=
  let s1 := bumpStats s evt.severity
  if evt.severity = .critical then
    { s1 with modalError := some evt }
  else
    let s2 := { s1 with toasts := s1.toasts ++ [toastOf s1.toastLifetime evt] }
    { s2 with toasts := evictOldest s2.toasts s2.maxToasts }

/-- The observer lambda registered by the constructor
(exception_handler.cpp lines 9-14): events are forwarded to
`on_exception` only while `enabled_` is set. -/
def onEvent (s : VisualizerState) (evt : ExceptionEvent) : VisualizerState :=
  if s.enabled then onException s evt else s

/-- One toast's per-frame update inside `render_toasts`
(exception_handler.cpp line 124): `it->lifetime -= dt`. -/
def stepToast (dt : ℚ) (t : Toast) : Toast :=
  { t with lifetime := t.lifetime - dt }

/-- The fade alpha computed in `render_toasts` (exception_handler.cpp
lines 131-137) for a toast that survived the expiry check: `1.0` by
default, `lifetime / 0.5` when `lifetime < 0.5`, else
`(initial_lifetime - lifetime) / 0.3` when
`lifetime > initial_lifetime - 0.3`. -/
def alphaOf (t : Toast) : ℚ :=
  if t.lifetime < 1 / 2 then t.lifetime / (1 / 2)
  else if t.lifetime > t.initialLifetime - 3 / 10 then
    (t.initialLifetime - t.lifetime) / (3 / 10)
  else 1

/-- The effect of `ExceptionVisualizer::render_toasts(dt)`
(exception_handler.cpp lines 82-192) on the state: every queued toast's
lifetime is decremented by `dt` and the ones whose lifetime dropped to
`<= 0` are erased; all other fields (positions, styling) are drawing
only.  The early return on an empty queue coincides with the map/filter
on `[]`. -/
def renderToasts (s : VisualizerState) (dt : ℚ) : VisualizerState :=
  { s with toasts :=
      (s.toasts.map (stepToast dt)).filter (fun t => 0 < t.lifetime) }

/-- `ExceptionVisualizer::render(dt)` (exception_handler.cpp lines
73-80): `render_toasts(dt)` then `render_modal()` and optionally the
statistics window.  Absent user button input, the latter two only draw:
the modal slot changes solely when a dismissal button is clicked, which
is modelled separately by `dismissModal`. -/
def render (s : VisualizerState) (dt : ℚ) : VisualizerState :=
  renderToasts s dt

/-- The `modal_error_.reset()` performed when the user clicks
`View Logs` or `Continue` in `render_modal` (exception_handler.cpp lines
245-257). -/
def dismissModal (s : VisualizerState) : VisualizerState :=
  { s with modalError := none }

/-- Whether `render_modal` has a pending critical event to show
(exception_handler.cpp lines 205-223). -/
def drawsModal (s : VisualizerState) : Bool :=
  s.modalError.isSome

/-- `ExceptionVisualizer::clear` (exception_visualizer.hpp lines 32-36):
under one lock acquisition, `toasts_.clear()` and
`modal_error_.reset()`. -/
def VisualizerState.clear (s : VisualizerState) : VisualizerState :=
  { s with toasts := [], modalError := none }

/-- A toast fixture carrying only the two lifetime fields the fade-alpha
computation reads: remaining lifetime `l` out of initial lifetime `L`. -/
def toastWithLifetimes (l L : ℚ) : Toast :=
  { message := "m"
    location := "l"
    type_ := "t"
    lifetime := l
    initialLifetime := L
    color := 0
    severity := .warn }

/-- A fresh visualizer whose host has called `set_max_toasts(K)` and
`set_toast_lifetime(L)`. -/
def configuredState (K : Nat) (L : ℚ) : VisualizerState :=
  { VisualizerState.initial with maxToasts := K, toastLifetime := L }

/-- The state after a sequence of `render(dt)` calls with the given frame
deltas. -/
def afterRenders (s : VisualizerState) (dts : List ℚ) : VisualizerState :=
  dts.foldl render s

end GsVisualizer

namespace GsCore

/-- The (severity, category) pair the spec's classification policy
(spec section 4.1, first match wins) assigns to each failure domain.
This definition is written from the spec's words, to be compared with
the catch chain embedded in `ExceptionHandler.wrapRun`. -/
def claimClassification : CppExc → Severity × String
  | .filesystemError _ => (.error, "filesystem_error")
  | .systemError _ => (.error, "system_error")
  | .runtimeError _ => (.error, "runtime_error")
  | .otherException _ => (.error, "exception")
  | .unknownExc => (.critical, "unknown")

/-- C1: if the callable wrapped by `ExceptionHandler::wrap` raises, the
adapter publishes exactly one event, and its (severity, category) pair is
the one the spec's precedence list assigns to the failure's domain:
filesystem → (Error, "filesystem_error"); OS/system →
(Error, "system_error"); generic runtime → (Error, "runtime_error");
other recognized exception → (Error, "exception"); unrecognized →
(Critical, "unknown"). -/
theorem wrap_classification {α β : Type} [Inhabited β] (h : ExceptionHandler)
    (f : α → Except CppExc β) (loc : SourceLocation) (a : α) (e : CppExc)
    (hf : f a = .error e) :
    ((h.wrapRun f loc a).2.map (fun r => (r.event.severity, r.event.typeName)))
      = [claimClassification e] := by
  cases e <;>
    simp [ExceptionHandler.wrapRun, hf, claimClassification,
      CppExc.matchesFilesystemError, CppExc.matchesSystemError,
      CppExc.matchesRuntimeError, CppExc.matchesStdException,
      ExceptionHandler.handleException]

/-- C1 witness: a raised `std::system_error` is published as one event
with severity Error and category "system_error". -/
theorem wrap_classification_witness :
    ((ExceptionHandler.empty.wrapRun
        (fun _ : Unit => (.error (.systemError "boom") : Except CppExc Nat))
        ⟨"main.cpp", "run", 7⟩ ()).2.map
      (fun r => (r.event.severity, r.event.typeName)))
      = [claimClassification (.systemError "boom")] :=
  wrap_classification ExceptionHandler.empty
    (fun _ : Unit => (.error (.systemError "boom") : Except CppExc Nat))
    ⟨"main.cpp", "run", 7⟩ () (.systemError "boom") rfl

/-- C2: the adapter returned by `wrap` never propagates a failure: a
normal completion's value is returned unchanged with nothing published,
and a raised failure of any kind makes the adapter return the
value-initialized default of the result type instead. -/
theorem wrap_nonpropagation {α β : Type} [Inhabited β] (h : ExceptionHandler)
    (f : α → Except CppExc β) (loc : SourceLocation) (a : α) :
    (∀ v, f a = .ok v → h.wrapRun f loc a = (v, []))
    ∧ (∀ e, f a = .error e → (h.wrapRun f loc a).1 = default) := by
  constructor
  · intro v hv
    simp [ExceptionHandler.wrapRun, hv]
  · intro e he
    cases e <;>
      simp [ExceptionHandler.wrapRun, he,
        CppExc.matchesFilesystemError, CppExc.matchesSystemError,
        CppExc.matchesRuntimeError, CppExc.matchesStdException]

/-- C2 witness: a succeeding callable's value (7) passes through
unchanged with no publication, and a raising callable yields the default
value (0 for `Nat`). -/
theorem wrap_nonpropagation_witness :
    ExceptionHandler.empty.wrapRun
        (fun _ : Unit => (.ok 7 : Except CppExc Nat)) ⟨"a.cpp", "g", 3⟩ ()
      = (7, [])
    ∧ (ExceptionHandler.empty.wrapRun
        (fun _ : Unit => (.error .unknownExc : Except CppExc Nat))
        ⟨"a.cpp", "g", 3⟩ ()).1 = default :=
  ⟨(wrap_nonpropagation ExceptionHandler.empty
      (fun _ : Unit => (.ok 7 : Except CppExc Nat)) ⟨"a.cpp", "g", 3⟩ ()).1 7 rfl,
   (wrap_nonpropagation ExceptionHandler.empty
      (fun _ : Unit => (.error .unknownExc : Except CppExc Nat))
      ⟨"a.cpp", "g", 3⟩ ()).2 .unknownExc rfl⟩

/-- C6: `handle_expected` publishes nothing on a success value; on a
failure payload it publishes exactly one Warn-severity event whose
message is the payload when the payload converts to a string and the
placeholder "Operation failed" otherwise.  The embedding takes the
result purely (the C++ parameter is a const reference), so the argument
is neither modified nor consumed. -/
theorem handle_expected_spec {T E : Type} (h : ExceptionHandler)
    (conv : Option (E → String)) (result : Except E T) (loc : SourceLocation) :
    (∀ v, result = .ok v → h.handleExpected conv result loc = [])
    ∧ (∀ e, result = .error e →
        ∃ r, h.handleExpected conv result loc = [r]
          ∧ r.event.severity = .warn
          ∧ r.event.message
              = (match conv with | some c => c e | none => "Operation failed")) := by
  constructor
  · intro v hv
    simp [ExceptionHandler.handleExpected, hv]
  · intro e he
    cases conv with
    | some c =>
      refine ⟨h.report (c e) .warn loc, ?_, rfl, rfl⟩
      simp [ExceptionHandler.handleExpected, he]
    | none =>
      refine ⟨h.report "Operation failed" .warn loc, ?_, rfl, rfl⟩
      simp [ExceptionHandler.handleExpected, he]

/-- C6 witness: a failing `std::expected` with a string-convertible
payload "disk full" publishes one Warn event carrying that payload. -/
theorem handle_expected_spec_witness :
    ∃ r, ExceptionHandler.empty.handleExpected (some id)
        (.error "disk full" : Except String Nat) ⟨"io.cpp", "load", 9⟩ = [r]
      ∧ r.event.severity = .warn
      ∧ r.event.message
          = (match (some id : Option (String → String)) with
             | some c => c "disk full" | none => "Operation failed") :=
  (handle_expected_spec ExceptionHandler.empty (some id)
    (.error "disk full" : Except String Nat) ⟨"io.cpp", "load", 9⟩).2
    "disk full" rfl

/-- C7: with observers O1 registered before O2 on a fresh handler, one
publication through the common publish point `handle_exception` — the
funnel used by wrap interception, `handle_expected` failure (via
`report`) and `report` — delivers the single constructed event first to
O1 and then to O2, exactly once each; likewise for the `report` entry
point with its "manual_report" category. -/
theorem observer_fanout_order (o1 o2 : Nat) (msg : String) (sev : Severity)
    (type_ : String) (loc : SourceLocation) :
    (((ExceptionHandler.empty.addObserver o1).addObserver o2).handleException
        msg sev type_ loc).deliveries
      = [(o1, ⟨msg, sev, loc, type_⟩), (o2, ⟨msg, sev, loc, type_⟩)]
    ∧ (((ExceptionHandler.empty.addObserver o1).addObserver o2).report
        msg sev loc).deliveries
      = [(o1, ⟨msg, sev, loc, "manual_report"⟩),
         (o2, ⟨msg, sev, loc, "manual_report"⟩)] := by
  constructor <;>
    simp [ExceptionHandler.empty, ExceptionHandler.addObserver,
      ExceptionHandler.handleException, ExceptionHandler.report]

end GsCore

namespace GsVisualizer

open GsCore

theorem bumpStats_toasts (s : VisualizerState) (sev : Severity) :
    (bumpStats s sev).toasts = s.toasts := by
  cases sev <;> rfl

theorem bumpStats_modalError (s : VisualizerState) (sev : Severity) :
    (bumpStats s sev).modalError = s.modalError := by
  cases sev <;> rfl

theorem bumpStats_maxToasts (s : VisualizerState) (sev : Severity) :
    (bumpStats s sev).maxToasts = s.maxToasts := by
  cases sev <;> rfl

theorem bumpStats_toastLifetime (s : VisualizerState) (sev : Severity) :
    (bumpStats s sev).toastLifetime = s.toastLifetime := by
  cases sev <;> rfl

/-- The eviction loop is a drop from the front down to length `K`. -/
theorem evictOldest_eq_drop (l : List Toast) (K : Nat) :
    evictOldest l K = l.drop (l.length - K) := by
  induction l with
  | nil => simp [evictOldest]
  | cons t ts ih =>
    rw [evictOldest]
    by_cases hgt : (t :: ts).length > K
    · rw [if_pos hgt, ih]
      have h1 : (t :: ts).length - K = (ts.length - K) + 1 := by
        simp only [List.length_cons] at hgt ⊢
        omega
      rw [h1, List.drop_succ_cons]
    · rw [if_neg hgt]
      have h0 : (t :: ts).length - K = 0 := by
        simp only [List.length_cons] at hgt ⊢
        omega
      rw [h0, List.drop_zero]

/-- C4: a Critical event leaves the toast queue untouched and
unconditionally overwrites the modal slot; two Critical events delivered
in succession before any dismissal leave the single modal slot holding
exactly the second event, the queue still untouched. -/
theorem critical_replaces_modal (s : VisualizerState) (e1 e2 : ExceptionEvent)
    (h1 : e1.severity = .critical) (h2 : e2.severity = .critical) :
    (onException s e1).toasts = s.toasts
    ∧ (onException s e1).modalError = some e1
    ∧ (onException (onException s e1) e2).toasts = s.toasts
    ∧ (onException (onException s e1) e2).modalError = some e2 := by
  simp [onException, h1, h2, bumpStats_toasts]

/-- C4 witness: two concrete Critical events delivered to the initial
state leave the queue empty and the modal holding the second. -/
theorem critical_replaces_modal_witness :
    (onException VisualizerState.initial
        ⟨"boom1", .critical, ⟨"a.cpp", "f", 1⟩, "runtime_error"⟩).toasts
      = VisualizerState.initial.toasts
    ∧ (onException VisualizerState.initial
        ⟨"boom1", .critical, ⟨"a.cpp", "f", 1⟩, "runtime_error"⟩).modalError
      = some ⟨"boom1", .critical, ⟨"a.cpp", "f", 1⟩, "runtime_error"⟩
    ∧ (onException (onException VisualizerState.initial
          ⟨"boom1", .critical, ⟨"a.cpp", "f", 1⟩, "runtime_error"⟩)
        ⟨"boom2", .critical, ⟨"b.cpp", "g", 2⟩, "unknown"⟩).toasts
      = VisualizerState.initial.toasts
    ∧ (onException (onException VisualizerState.initial
          ⟨"boom1", .critical, ⟨"a.cpp", "f", 1⟩, "runtime_error"⟩)
        ⟨"boom2", .critical, ⟨"b.cpp", "g", 2⟩, "unknown"⟩).modalError
      = some ⟨"boom2", .critical, ⟨"b.cpp", "g", 2⟩, "unknown"⟩ :=
  critical_replaces_modal VisualizerState.initial
    ⟨"boom1", .critical, ⟨"a.cpp", "f", 1⟩, "runtime_error"⟩
    ⟨"boom2", .critical, ⟨"b.cpp", "g", 2⟩, "unknown"⟩ rfl rfl

/-- C9: `clear()` empties the toast queue and the modal slot in the one
state update it performs (a single critical section in the source), so a
subsequent `render` has no toasts to draw and no pending modal. -/
theorem clear_empties (s : VisualizerState) (dt : ℚ) :
    s.clear.toasts = []
    ∧ s.clear.modalError = none
    ∧ (render s.clear dt).toasts = []
    ∧ drawsModal (render s.clear dt) = false := by
  simp [VisualizerState.clear, render, renderToasts, drawsModal]

/-- C10: `on_exception` increments exactly one statistics counter for
every event, before the critical/non-critical branch: the error counter
for Error and Critical, the warning counter for Warn, the info counter
for Info, Debug and Trace; in particular a Critical event, although it
goes to the modal slot, still raises `get_error_count` by one, and the
three counters together always grow by exactly one. -/
theorem stats_exactly_one_counter (s : VisualizerState) (evt : ExceptionEvent) :
    (onException s evt).getErrorCount
      = s.getErrorCount
        + (if evt.severity = .error ∨ evt.severity = .critical then 1 else 0)
    ∧ (onException s evt).getWarningCount
      = s.getWarningCount + (if evt.severity = .warn then 1 else 0)
    ∧ (onException s evt).infoCount
      = s.infoCount
        + (if evt.severity = .info ∨ evt.severity = .debug ∨ evt.severity = .trace
           then 1 else 0)
    ∧ (onException s evt).getErrorCount + (onException s evt).getWarningCount
        + (onException s evt).infoCount
      = s.getErrorCount + s.getWarningCount + s.infoCount + 1 := by
  cases hsev : evt.severity <;>
    simp [onException, bumpStats, hsev,
      VisualizerState.getErrorCount, VisualizerState.getWarningCount] <;>
    omega

end GsVisualizer

namespace GsVisualizer

open GsCore

theorem onException_maxToasts (s : VisualizerState) (evt : ExceptionEvent) :
    (onException s evt).maxToasts = s.maxToasts := by
  by_cases hc : evt.severity = .critical <;>
    simp [onException, hc, bumpStats_maxToasts]

theorem onException_toastLifetime (s : VisualizerState) (evt : ExceptionEvent) :
    (onException s evt).toastLifetime = s.toastLifetime := by
  by_cases hc : evt.severity = .critical <;>
    simp [onException, hc, bumpStats_toastLifetime]

/-- On a non-critical event the new queue is the old queue with the new
toast appended, clamped from the front to the configured maximum. -/
theorem onException_noncritical_toasts (s : VisualizerState)
    (evt : ExceptionEvent) (hnc : evt.severity ≠ .critical) :
    (onException s evt).toasts
      = (s.toasts ++ [toastOf s.toastLifetime evt]).drop
          (s.toasts.length + 1 - s.maxToasts) := by
  simp [onException, hnc, bumpStats_toasts, bumpStats_maxToasts,
    bumpStats_toastLifetime, evictOldest_eq_drop]

/-- Folding a sequence of non-critical events over `on_exception` keeps,
of the old queue followed by the new toasts, exactly the entries that fit
under the maximum, dropped from the front. -/
theorem foldl_onException_toasts (K : Nat) (L : ℚ) :
    ∀ (evts : List ExceptionEvent) (s : VisualizerState),
      s.maxToasts = K → s.toastLifetime = L → s.toasts.length ≤ K →
      (∀ e ∈ evts, e.severity ≠ .critical) →
      (evts.foldl onException s).toasts
        = (s.toasts ++ evts.map (toastOf L)).drop
            (s.toasts.length + evts.length - K) := by
  intro evts
  induction evts with
  | nil =>
    intro s hK hL hlen _
    have h0 : s.toasts.length - K = 0 := Nat.sub_eq_zero_of_le hlen
    simp [h0]
  | cons e rest ih =>
    intro s hK hL hlen hnc
    have hncE : e.severity ≠ .critical := hnc e (List.mem_cons_self e rest)
    have htoasts : (onException s e).toasts
        = (s.toasts ++ [toastOf L e]).drop (s.toasts.length + 1 - K) := by
      rw [onException_noncritical_toasts s e hncE, hK, hL]
    have hlen' : (onException s e).toasts.length ≤ K := by
      rw [htoasts, List.length_drop]
      simp only [List.length_append, List.length_singleton]
      omega
    have hnc' : ∀ x ∈ rest, x.severity ≠ Severity.critical :=
      fun x hx => hnc x (List.mem_cons_of_mem e hx)
    rw [List.foldl_cons,
      ih (onException s e) ((onException_maxToasts s e).trans hK)
        ((onException_toastLifetime s e).trans hL) hlen' hnc',
      htoasts]
    have hdl : (s.toasts ++ [toastOf L e]).drop (s.toasts.length + 1 - K)
          ++ rest.map (toastOf L)
        = ((s.toasts ++ [toastOf L e]) ++ rest.map (toastOf L)).drop
            (s.toasts.length + 1 - K) :=
      (List.drop_append_of_le_length (by simp)).symm
    rw [hdl, List.drop_drop]
    have hlist : (s.toasts ++ [toastOf L e]) ++ rest.map (toastOf L)
        = s.toasts ++ List.map (toastOf L) (e :: rest) := by
      simp
    have hidx : s.toasts.length + 1 - K
          + (((s.toasts ++ [toastOf L e]).drop
              (s.toasts.length + 1 - K)).length + rest.length - K)
        = s.toasts.length + (e :: rest).length - K := by
      simp only [List.length_drop, List.length_append, List.length_singleton,
        List.length_cons, List.length_nil]
      omega
    rw [hlist, hidx]

/-- C3: delivering `N` non-critical events to a visualizer configured
with `max_toasts = K` leaves a queue of length `min N K ≤ K` whose
entries are exactly the `min N K` most recently enqueued toasts in
enqueue order (the suffix of the enqueue sequence: eviction only drops
the oldest, front entries). -/
theorem queue_bound (K : Nat) (L : ℚ) (evts : List ExceptionEvent)
    (hnc : ∀ e ∈ evts, e.severity ≠ .critical) :
    (evts.foldl onException (configuredState K L)).toasts
      = (evts.map (toastOf L)).drop (evts.length - K)
    ∧ (evts.foldl onException (configuredState K L)).toasts.length
      = min evts.length K
    ∧ (evts.foldl onException (configuredState K L)).toasts.length ≤ K := by
  have hts : (configuredState K L).toasts = [] := rfl
  have hmain := foldl_onException_toasts K L evts (configuredState K L)
    rfl rfl (by rw [hts]; exact Nat.zero_le K) hnc
  simp only [hts, List.nil_append, List.length_nil, Nat.zero_add] at hmain
  refine ⟨hmain, ?_, ?_⟩ <;>
    rw [hmain, List.length_drop, List.length_map] <;> omega

/-- C3 witness: with `max_toasts = 2` and three Warn reports A, B, C,
the surviving queue is exactly [B, C]. -/
theorem queue_bound_witness :
    ([⟨"A", .warn, ⟨"a.cpp", "f", 1⟩, "manual_report"⟩,
      ⟨"B", .warn, ⟨"a.cpp", "f", 2⟩, "manual_report"⟩,
      ⟨"C", .warn, ⟨"a.cpp", "f", 3⟩, "manual_report"⟩].foldl onException
        (configuredState 2 4)).toasts
      = ([⟨"A", .warn, ⟨"a.cpp", "f", 1⟩, "manual_report"⟩,
          ⟨"B", .warn, ⟨"a.cpp", "f", 2⟩, "manual_report"⟩,
          ⟨"C", .warn, ⟨"a.cpp", "f", 3⟩, "manual_report"⟩].map
            (toastOf 4)).drop 1 :=
  (queue_bound 2 4
    [⟨"A", .warn, ⟨"a.cpp", "f", 1⟩, "manual_report"⟩,
     ⟨"B", .warn, ⟨"a.cpp", "f", 2⟩, "manual_report"⟩,
     ⟨"C", .warn, ⟨"a.cpp", "f", 3⟩, "manual_report"⟩] (by decide)).1

end GsVisualizer

namespace GsVisualizer

open GsCore

theorem mem_renderToasts_pos (s : VisualizerState) (dt : ℚ) :
    ∀ u ∈ (renderToasts s dt).toasts, 0 < u.lifetime := by
  intro u hu
  simp only [renderToasts, List.mem_filter, decide_eq_true_eq] at hu
  exact hu.2

/-- After at least one `render` call, every toast still in the queue has
strictly positive remaining lifetime. -/
theorem mem_afterRenders_pos (s : VisualizerState) (dts : List ℚ)
    (hne : dts ≠ []) :
    ∀ u ∈ (afterRenders s dts).toasts, 0 < u.lifetime := by
  rcases List.eq_nil_or_concat dts with h | ⟨init, d, rfl⟩
  · exact absurd h hne
  · intro u hu
    rw [afterRenders, List.concat_eq_append, List.foldl_append] at hu
    simp only [List.foldl_cons, List.foldl_nil, render] at hu
    exact mem_renderToasts_pos _ d u hu

/-- C5: a toast enqueued with lifetime `L`, once the frame deltas of the
`render` calls since enqueue sum to at least `L`, is gone from the queue
by the render call that crossed the threshold (its decremented image is
no longer present), and it never re-appears under any further
(nonnegative-delta) render calls. -/
theorem toast_expiry (s : VisualizerState) (t : Toast) (L : ℚ) (dts : List ℚ)
    (_ht : t ∈ s.toasts) (hL : t.lifetime = L) (hne : dts ≠ [])
    (hsum : L ≤ dts.sum) :
    stepToast dts.sum t ∉ (afterRenders s dts).toasts
    ∧ ∀ dts' : List ℚ, (∀ d ∈ dts', 0 ≤ d) →
        stepToast (dts ++ dts').sum t ∉ (afterRenders s (dts ++ dts')).toasts := by
  constructor
  · intro hmem
    have hpos := mem_afterRenders_pos s dts hne _ hmem
    simp only [stepToast] at hpos
    rw [hL] at hpos
    linarith
  · intro dts' hd hmem
    have hne2 : dts ++ dts' ≠ [] := fun hcontra =>
      hne (List.append_eq_nil.mp hcontra).1
    have hpos := mem_afterRenders_pos s (dts ++ dts') hne2 _ hmem
    have hnn : 0 ≤ dts'.sum := List.sum_nonneg hd
    simp only [stepToast] at hpos
    rw [hL, List.sum_append] at hpos
    linarith

/-- C5 witness: a fresh 4-second toast is absent after a single render
with `dt = 4`. -/
theorem toast_expiry_witness :
    stepToast (List.sum [(4 : ℚ)])
        (toastOf 4 ⟨"W", .warn, ⟨"a.cpp", "f", 1⟩, "manual_report"⟩)
      ∉ (afterRenders
          { configuredState 5 4 with
            toasts := [toastOf 4 ⟨"W", .warn, ⟨"a.cpp", "f", 1⟩, "manual_report"⟩] }
          [(4 : ℚ)]).toasts :=
  (toast_expiry
    { configuredState 5 4 with
      toasts := [toastOf 4 ⟨"W", .warn, ⟨"a.cpp", "f", 1⟩, "manual_report"⟩] }
    (toastOf 4 ⟨"W", .warn, ⟨"a.cpp", "f", 1⟩, "manual_report"⟩) 4 [(4 : ℚ)]
    (List.mem_singleton.mpr rfl) rfl (by simp) (by norm_num)).1

/-- C8 counterexample: two surviving toasts at the same elapsed fraction
(one fifth) of their respective initial lifetimes (1 s and 10 s) get
different fade alphas, 2/3 versus 1.  If the fade-in/fade-out windows
were fixed fractions of the initial lifetime, as the claim states, the
alpha would be determined by the elapsed fraction alone and the two
values would coincide; the windows are in fact the fixed absolute
durations 0.3 s (fade-in) and 0.5 s (fade-out). -/
theorem fade_fraction_counterexample :
    (0 : ℚ) < (toastWithLifetimes (4/5) 1).lifetime
    ∧ (toastWithLifetimes (4/5) 1).lifetime
      ≤ (toastWithLifetimes (4/5) 1).initialLifetime
    ∧ (0 : ℚ) < (toastWithLifetimes 8 10).lifetime
    ∧ (toastWithLifetimes 8 10).lifetime
      ≤ (toastWithLifetimes 8 10).initialLifetime
    ∧ ((1 : ℚ) - 4/5) * 10 = ((10 : ℚ) - 8) * 1
    ∧ alphaOf (toastWithLifetimes (4/5) 1) = 2/3
    ∧ alphaOf (toastWithLifetimes 8 10) = 1
    ∧ alphaOf (toastWithLifetimes (4/5) 1) ≠ alphaOf (toastWithLifetimes 8 10) := by
  norm_num [alphaOf, toastWithLifetimes]

/-- C8 amended: for every surviving toast (with initial lifetime at
least 0.8 s, so the two windows do not overlap), the fade alpha rises
linearly from 0 to 1 during the first 0.3 seconds of elapsed display
time, is exactly 1 in between, and falls linearly to 0 during the last
0.5 seconds of remaining lifetime; the windows are these fixed absolute
durations, independent of the initial lifetime, and the alpha always
lies in [0, 1]. -/
theorem fade_windows_absolute (t : Toast)
    (hW : 4/5 ≤ t.initialLifetime)
    (hpos : 0 < t.lifetime) (hle : t.lifetime ≤ t.initialLifetime) :
    (t.initialLifetime - t.lifetime < 3/10 →
       alphaOf t = (t.initialLifetime - t.lifetime) / (3/10))
    ∧ (3/10 ≤ t.initialLifetime - t.lifetime → 1/2 ≤ t.lifetime →
       alphaOf t = 1)
    ∧ (t.lifetime < 1/2 → alphaOf t = t.lifetime / (1/2))
    ∧ 0 ≤ alphaOf t ∧ alphaOf t ≤ 1 := by
  unfold alphaOf
  refine ⟨?_, ?_, ?_, ?_, ?_⟩
  · intro h1
    rw [if_neg (by linarith), if_pos (by linarith)]
  · intro h1 h2
    rw [if_neg (by linarith), if_neg (by linarith)]
  · intro h1
    rw [if_pos h1]
  · split_ifs with h1 h2
    · exact div_nonneg (le_of_lt hpos) (by norm_num)
    · exact div_nonneg (by linarith) (by norm_num)
    · norm_num
  · split_ifs with h1 h2
    · rw [div_le_one (by norm_num)]
      linarith
    · rw [div_le_one (by norm_num)]
      linarith
    · exact le_refl 1

/-- C8 amended-claim witness: a 4-second toast with 0.1 s elapsed is
still fading in, with alpha (0.1)/(0.3) = 1/3. -/
theorem fade_windows_absolute_witness :
    alphaOf (toastWithLifetimes (39/10) 4)
      = ((toastWithLifetimes (39/10) 4).initialLifetime
          - (toastWithLifetimes (39/10) 4).lifetime) / (3/10) :=
  (fade_windows_absolute (toastWithLifetimes (39/10) 4)
    (by norm_num [toastWithLifetimes]) (by norm_num [toastWithLifetimes])
    (by norm_num [toastWithLifetimes])).1 (by norm_num [toastWithLifetimes])

end GsVisualizer
